import Mathlib

/-!
Verification of the Mars-Climate data pipeline (src/main.py) against its
natural-language specification.

The pipeline is shallowly embedded:
- `assign_mars_season` embeds the Python function of the same name over ℚ
  (the ordinary numeric case);
- `PyFloat` and `assign_mars_season_py` embed the same function over a
  numeric domain that also carries NaN and the infinities, with the Python
  comparison semantics (every comparison with NaN is false);
- `load_and_clean_data` embeds the loader: the filesystem is a list of
  existing paths, `pd.read_csv` is an abstract `readCsv` argument, and the
  date parser backing `pd.to_datetime` is an abstract `p` argument
  (the claims do not depend on the concrete date grammar, only on the
  "errors=coerce" behaviour: an unparseable value becomes missing);
- the groupby-mean of `plot_season_comparison` is embedded as
  `aggregate_by_season`, and the value-counts branch of `plot_opacity` as
  `tally_opacity`.
-/

namespace MarsClimate

/-- Embeds `assign_mars_season` (src/main.py lines 31-41) over ℚ.
Python chained comparison `a <= x < b` is `a <= x and x < b`. -/
def assign_mars_season (ls : ℚ) : String :=
  if 0 ≤ ls ∧ ls < 90 then ("Spring")
  else if 90 ≤ ls ∧ ls < 180 then ("Summer")
  else if 180 ≤ ls ∧ ls < 270 then ("Autumn")
  else if 270 ≤ ls ∧ ls < 360 then ("Winter")
  else ("Unknown")

/-- A Python float for comparison purposes: NaN, the two infinities, or a
finite value (modelled as a rational). -/
inductive PyFloat where
  | nan : PyFloat
  | ninf : PyFloat
  | pinf : PyFloat
  | fin : ℚ → PyFloat
deriving DecidableEq

/-- Python `<=` on floats: any comparison involving NaN is false. -/
def PyFloat.le : PyFloat → PyFloat → Bool
  | .nan, _ => false
  | _, .nan => false
  | .ninf, _ => true
  | _, .ninf => false
  | _, .pinf => true
  | .pinf, _ => false
  | .fin a, .fin b => decide (a ≤ b)

/-- Python `<` on floats: any comparison involving NaN is false. -/
def PyFloat.lt : PyFloat → PyFloat → Bool
  | .nan, _ => false
  | _, .nan => false
  | .ninf, .ninf => false
  | .ninf, _ => true
  | _, .ninf => false
  | .pinf, _ => false
  | _, .pinf => true
  | .fin a, .fin b => decide (a < b)

/-- Embeds `assign_mars_season` over `PyFloat`, so that its behaviour on
NaN and the infinities (all interval tests false, fall through to the
`else` branch) is captured faithfully. -/
def assign_mars_season_py (ls : PyFloat) : String :=
  if PyFloat.le (.fin 0) ls && PyFloat.lt ls (.fin 90) then ("Spring")
  else if PyFloat.le (.fin 90) ls && PyFloat.lt ls (.fin 180) then ("Summer")
  else if PyFloat.le (.fin 180) ls && PyFloat.lt ls (.fin 270) then ("Autumn")
  else if PyFloat.le (.fin 270) ls && PyFloat.lt ls (.fin 360) then ("Winter")
  else ("Unknown")

/-- The finite case of the `PyFloat` embedding agrees with the ℚ one. -/
theorem assign_mars_season_py_fin (q : ℚ) :
    assign_mars_season_py (.fin q) = assign_mars_season q := by
  simp only [assign_mars_season_py, assign_mars_season, PyFloat.le, PyFloat.lt,
    Bool.and_eq_true, decide_eq_true_eq]

/-- A calendar date, as produced by a successful `pd.to_datetime` parse. -/
structure Date where
  year : Int
  month : Nat
  day : Nat
deriving DecidableEq

/-- Two-digit zero padding, for `strftime` fields `%m` and `%d`. -/
def pad2 (n : Nat) : String :=
  if n < 10 then ("0") ++ toString n else toString n

/-- Embeds `strftime` with format `%Y-%m-%d` (src/main.py line 26). -/
def formatDay (d : Date) : String :=
  toString d.year ++ "-" ++ pad2 d.month ++ "-" ++ pad2 d.day

/-- A raw csv row, restricted to the columns the pipeline touches. Every
field is optional: a missing cell is `none` (pandas NaN). `terrestrial_date`
is still unparsed text here. -/
structure RawRow where
  terrestrial_date : Option String
  min_temp : Option ℚ
  max_temp : Option ℚ
  pressure : Option ℚ
  ls : Option ℚ
  atmospheric_opacity : Option String
deriving DecidableEq

/-- A row after the `pd.to_datetime(..., errors=coerce)` step: the date cell
now holds a parsed `Date`, or `none` (pandas NaT) when the text was missing
or unparseable. -/
structure ParsedRow where
  terrestrial_date : Option Date
  min_temp : Option ℚ
  max_temp : Option ℚ
  pressure : Option ℚ
  ls : Option ℚ
  atmospheric_opacity : Option String
deriving DecidableEq

/-- A row of the cleaned table. The base columns keep their pandas typing
(`Option`: a cell could in principle be NaN/NaT) and the derived columns
`season`, `year`, `day` have been appended. -/
structure OutRow where
  terrestrial_date : Option Date
  min_temp : Option ℚ
  max_temp : Option ℚ
  pressure : Option ℚ
  ls : Option ℚ
  atmospheric_opacity : Option String
  season : String
  year : Option Int
  day : Option String
deriving DecidableEq

/-- Embeds line 21: `pd.to_datetime(df[terrestrial_date], errors=coerce)`.
`p` is the date grammar; a missing cell stays missing, an unparseable cell
becomes missing (`Option.bind`). -/
def coerceDate (p : String → Option Date) (r : RawRow) : ParsedRow :=
  { terrestrial_date := r.terrestrial_date.bind p
    min_temp := r.min_temp
    max_temp := r.max_temp
    pressure := r.pressure
    ls := r.ls
    atmospheric_opacity := r.atmospheric_opacity }

/-- Embeds the row predicate of line 22: `dropna(subset=[...])` keeps a row
iff all five listed cells are present. -/
def dropnaKeep (r : ParsedRow) : Bool :=
  r.terrestrial_date.isSome && r.min_temp.isSome && r.max_temp.isSome &&
    r.pressure.isSome && r.ls.isSome

/-- Embeds `df[ls].apply(assign_mars_season)` on one cell. A NaN cell would
behave as `PyFloat.nan`, for which every interval test is false, so the
function falls through to Unknown. -/
def seasonOfCell : Option ℚ → String
  | some l => assign_mars_season l
  | none => assign_mars_season_py .nan

/-- Embeds lines 24-26: append the derived `season`, `year` and `day`
columns to a (surviving) row. -/
def addDerived (r : ParsedRow) : OutRow :=
  { terrestrial_date := r.terrestrial_date
    min_temp := r.min_temp
    max_temp := r.max_temp
    pressure := r.pressure
    ls := r.ls
    atmospheric_opacity := r.atmospheric_opacity
    season := seasonOfCell r.ls
    year := r.terrestrial_date.map (fun d => d.year)
    day := r.terrestrial_date.map formatDay }

/-- The row-level part of `load_and_clean_data` (lines 21-26): coerce the
dates, drop incomplete rows, append the derived columns. -/
def clean_rows (p : String → Option Date) (rows : List RawRow) : List OutRow :=
  ((rows.map (coerceDate p)).filter dropnaKeep).map addDerived

/-- The raw table `pd.read_csv` yields: a header and the rows. The typed
`RawRow` fields are the cells of the correspondingly named columns; `cols`
records which column names are actually present in the source header. -/
structure RawTable where
  cols : List String
  rows : List RawRow
deriving DecidableEq

/-- The cleaned table `load_and_clean_data` returns. -/
structure OutTable where
  cols : List String
  rows : List OutRow
deriving DecidableEq

/-- The ways the loader can fail. `FileNotFoundError` from the path check is
`sourceNotFound`; a pandas column lookup failure (missing label on
`df[...]` or on the `dropna` subset) is `keyError`. `schemaError` is the
descriptive error the specification asks for; the code never produces it,
the constructor exists so that the specified behaviour can be stated. -/
inductive LoadError where
  | sourceNotFound (path : String)
  | keyError (col : String)
  | schemaError (msg : String)
deriving DecidableEq

deriving instance DecidableEq for Except

/-- Is the outcome the descriptive schema error the specification asks for? -/
def isSchemaError : Except LoadError OutTable → Bool
  | .error (.schemaError _) => true
  | _ => false

/-- Lowercase a string, character by character (`.str.lower()`). -/
def lowerStr (s : String) : String := ⟨s.data.map Char.toLower⟩

/-- Remove leading and trailing whitespace (`.str.strip()`). -/
def trimStr (s : String) : String :=
  ⟨((s.data.dropWhile (fun c => c.isWhitespace)).reverse.dropWhile
      (fun c => c.isWhitespace)).reverse⟩

/-- Embeds line 18: `df.columns.str.strip().str.lower()`. -/
def normalizeCols (cols : List String) : List String :=
  cols.map (fun c => lowerStr (trimStr c))

/-- Embeds line 20 on one name: `rename(columns={...})` replaces
`atmo_opacity` by `atmospheric_opacity` and leaves every other name alone. -/
def renameOne (c : String) : String :=
  if c = "atmo_opacity" then ("atmospheric_opacity") else c

/-- Embeds line 20: the rename applied to the whole header. -/
def renameCols (cols : List String) : List String :=
  cols.map renameOne

/-- Column assignment `df[c] = ...` appends the column when it is new. -/
def addCol (cols : List String) (c : String) : List String :=
  if c ∈ cols then cols else cols ++ [c]

/-- The five columns line 22 passes to `dropna(subset=...)`. -/
def requiredCols : List String :=
  ["terrestrial_date", "min_temp", "max_temp", "pressure", "ls"]

/-- Embeds `load_and_clean_data` (src/main.py lines 13-28).
`fs` is the set of existing paths (`os.path.exists`), `p` the date grammar,
`readCsv` the csv reader. Following the source order: path check, read,
header normalization (strip+lower then rename), the `df[terrestrial_date]`
lookup of line 21 (KeyError when the column is absent), the date coercion,
the `dropna` of line 22 (KeyError on the first required column absent from
the header), then dropping incomplete rows and appending the derived
columns. -/
def load_and_clean_data (fs : List String) (p : String → Option Date)
    (readCsv : String → RawTable) (path : String) :
    Except LoadError OutTable :=
  if path ∈ fs then
    if ("terrestrial_date") ∈ renameCols (normalizeCols (readCsv path).cols) then
      match requiredCols.find?
          (fun c => !((renameCols (normalizeCols (readCsv path).cols)).contains c)) with
      | some c => .error (.keyError c)
      | none =>
          .ok { cols := addCol (addCol (addCol
                  (renameCols (normalizeCols (readCsv path).cols)) "season") "year") "day"
                rows := clean_rows p (readCsv path).rows }
    else .error (.keyError ("terrestrial_date"))
  else .error (.sourceNotFound path)

/-- One row of the `groupby(season).mean()` result of line 93. -/
structure SeasonAgg where
  season : String
  min_temp : Option ℚ
  max_temp : Option ℚ
  pressure : Option ℚ
deriving DecidableEq

/-- Pandas column mean with `skipna`: the mean of the present cells, NaN
(`none`) when none are present. -/
def meanOpt (xs : List (Option ℚ)) : Option ℚ :=
  let v := xs.reduceOption
  if v.length = 0 then none else some (v.sum / (v.length : ℚ))

/-- The distinct values of a list, first occurrence kept. -/
def firstDedup : List String → List String
  | [] => []
  | x :: xs => x :: (firstDedup xs).filter (fun y => y ≠ x)

/-- Lexicographic comparison of character lists by code point. -/
def ltChars : List Char → List Char → Bool
  | [], [] => false
  | [], _ :: _ => true
  | _ :: _, [] => false
  | a :: as, b :: bs =>
      if a.toNat < b.toNat then true
      else if b.toNat < a.toNat then false
      else ltChars as bs

/-- Lexicographic string comparison by code point. -/
def ltStr (a b : String) : Bool := ltChars a.data b.data

/-- Insert a string into a sorted list (ordering step of `groupby`,
which sorts the group keys). -/
def insertSorted (s : String) : List String → List String
  | [] => [s]
  | t :: ts => if ltStr s t then s :: t :: ts else t :: insertSorted s ts

/-- Sort a list of strings (insertion sort). -/
def sortStrings : List String → List String
  | [] => []
  | s :: ss => insertSorted s (sortStrings ss)

/-- Embeds line 93: `df.groupby(season)[[min_temp, max_temp, pressure]]
.mean()`. One row per distinct season key occurring in the data (groupby
emits the sorted realized keys, nothing for an empty group), holding the
mean of each listed column over that group. -/
def aggregate_by_season (rows : List OutRow) : List SeasonAgg :=
  let keys := sortStrings (firstDedup (rows.map (fun r => r.season)))
  keys.map (fun s =>
    let g := rows.filter (fun r => r.season = s)
    { season := s
      min_temp := meanOpt (g.map (fun r => r.min_temp))
      max_temp := meanOpt (g.map (fun r => r.max_temp))
      pressure := meanOpt (g.map (fun r => r.pressure)) })

/-- Embeds `value_counts` (line 78): one pair per distinct observed value
with its number of occurrences; missing cells are not counted. (Pandas
orders the pairs by descending count; no claim depends on the order, and
the embedding uses first-occurrence order.) -/
def value_counts (xs : List String) : List (String × Nat) :=
  (firstDedup xs).map (fun v => (v, xs.count v))

/-- Embeds the data-shaping part of `plot_opacity` (lines 76-89): when the
cleaned table has an `atmospheric_opacity` column, the tally of its present
cells; otherwise the absent-column signal (`none`, the warning branch). -/
def tally_opacity (t : OutTable) : Option (List (String × Nat)) :=
  if ("atmospheric_opacity") ∈ t.cols then
    some (value_counts (t.rows.filterMap (fun r => r.atmospheric_opacity)))
  else none

/-- Membership in the cleaned rows: exactly the images of the complete
input rows. -/
theorem mem_clean_rows (p : String → Option Date) (rows : List RawRow) (c : OutRow) :
    c ∈ clean_rows p rows ↔
      ∃ r, r ∈ rows ∧ dropnaKeep (coerceDate p r) = true ∧
        addDerived (coerceDate p r) = c := by
  simp only [clean_rows, List.mem_map, List.mem_filter]
  constructor
  · rintro ⟨pr, ⟨⟨r, hr, rfl⟩, hkeep⟩, rfl⟩
    exact ⟨r, hr, hkeep, rfl⟩
  · rintro ⟨r, hr, hkeep, rfl⟩
    exact ⟨coerceDate p r, ⟨⟨r, hr, rfl⟩, hkeep⟩, rfl⟩

/-- `addDerived` only appends columns, so it is injective. -/
theorem addDerived_inj {a b : ParsedRow} (h : addDerived a = addDerived b) :
    a = b := by
  cases a
  cases b
  simp only [addDerived, OutRow.mk.injEq] at h
  simp only [ParsedRow.mk.injEq]
  exact ⟨h.1, h.2.1, h.2.2.1, h.2.2.2.1, h.2.2.2.2.1, h.2.2.2.2.2.1⟩

/-- Every cleaned row has its five required cells present and its season
computed from its ls cell. -/
theorem clean_rows_invariant (p : String → Option Date) (rows : List RawRow)
    (c : OutRow) (h : c ∈ clean_rows p rows) :
    c.terrestrial_date.isSome = true ∧ c.min_temp.isSome = true ∧
      c.max_temp.isSome = true ∧ c.pressure.isSome = true ∧
      ∃ l : ℚ, c.ls = some l ∧ c.season = assign_mars_season l := by
  rcases (mem_clean_rows p rows c).mp h with ⟨r, _, hkeep, rfl⟩
  simp only [dropnaKeep, Bool.and_eq_true, coerceDate] at hkeep
  obtain ⟨⟨⟨⟨hd, hmn⟩, hmx⟩, hp⟩, hls⟩ := hkeep
  rcases Option.isSome_iff_exists.mp hls with ⟨l, hl⟩
  refine ⟨?_, ?_, ?_, ?_, l, ?_, ?_⟩ <;>
    simp [addDerived, coerceDate, seasonOfCell, hd, hmn, hmx, hp, hl]

/-- When the load returns a table, its rows are the cleaned input rows. -/
theorem load_ok_rows (fs : List String) (p : String → Option Date)
    (readCsv : String → RawTable) (path : String) (t : OutTable)
    (hok : load_and_clean_data fs p readCsv path = .ok t) :
    t.rows = clean_rows p (readCsv path).rows := by
  unfold load_and_clean_data at hok
  by_cases h1 : path ∈ fs
  · rw [if_pos h1] at hok
    by_cases h2 : "terrestrial_date" ∈ renameCols (normalizeCols (readCsv path).cols)
    · rw [if_pos h2] at hok
      rcases hfind : requiredCols.find?
          (fun c => !((renameCols (normalizeCols (readCsv path).cols)).contains c)) with
        _ | c
      · rw [hfind] at hok
        injection hok with h
        rw [← h]
      · rw [hfind] at hok
        exact Except.noConfusion hok
    · rw [if_neg h2] at hok
      exact Except.noConfusion hok
  · rw [if_neg h1] at hok
    exact Except.noConfusion hok

/-- When the path exists and every required column is present in the
normalized header, the load succeeds with the cleaned table. -/
theorem load_eq_ok (fs : List String) (p : String → Option Date)
    (readCsv : String → RawTable) (path : String) (h1 : path ∈ fs)
    (h2 : requiredCols.find?
        (fun c => !((renameCols (normalizeCols (readCsv path).cols)).contains c)) = none) :
    load_and_clean_data fs p readCsv path =
      .ok { cols := addCol (addCol (addCol
              (renameCols (normalizeCols (readCsv path).cols)) "season") "year") "day"
            rows := clean_rows p (readCsv path).rows } := by
  have htd : "terrestrial_date" ∈ renameCols (normalizeCols (readCsv path).cols) := by
    have hall := List.find?_eq_none.mp h2 ("terrestrial_date") (by simp [requiredCols])
    simpa using hall
  unfold load_and_clean_data
  rw [if_pos h1, if_pos htd, h2]

/-- C1: `assign_mars_season` returns Spring on [0,90), Summer on [90,180),
Autumn on [180,270) and Winter on [270,360); the half-open intervals have
inclusive lower and exclusive upper bounds, so ls = 90 yields Summer, not
Spring. (The four conjuncts cover the ordered, disjoint intervals that
partition [0,360).) -/
theorem classify_season_intervals (ls : ℚ) :
    (0 ≤ ls ∧ ls < 90 → assign_mars_season ls = "Spring") ∧
    (90 ≤ ls ∧ ls < 180 → assign_mars_season ls = "Summer") ∧
    (180 ≤ ls ∧ ls < 270 → assign_mars_season ls = "Autumn") ∧
    (270 ≤ ls ∧ ls < 360 → assign_mars_season ls = "Winter") ∧
    assign_mars_season (90 : ℚ) = "Summer" := by
  refine ⟨?_, ?_, ?_, ?_, by norm_num [assign_mars_season]⟩ <;>
    · intro h
      unfold assign_mars_season
      split_ifs <;>
        first
          | rfl
          | (exfalso
             obtain ⟨ha, hb⟩ := h
             obtain ⟨hc, hd⟩ := ‹_ ∧ _›
             linarith)

/-- Witness for C1: the theorem applied at ls = 45 puts it in Spring. -/
theorem classify_season_intervals_witness :
    assign_mars_season (45 : ℚ) = "Spring" :=
  (classify_season_intervals 45).1 ⟨by norm_num, by norm_num⟩

/-- C4: `assign_mars_season` is total and raises nothing; on every input
outside [0,360) — every negative or ≥ 360 finite value, and the non-finite
values NaN and ±∞ — it falls through to Unknown. -/
theorem classify_season_out_of_range_unknown (ls : PyFloat)
    (h : ∀ q : ℚ, ls = PyFloat.fin q → q < 0 ∨ 360 ≤ q) :
    assign_mars_season_py ls = "Unknown" := by
  cases ls with
  | nan => rfl
  | ninf => rfl
  | pinf => rfl
  | fin q =>
      rcases h q rfl with hq | hq <;>
        · simp only [assign_mars_season_py, PyFloat.le, PyFloat.lt, Bool.and_eq_true,
            decide_eq_true_eq]
          split_ifs with h1 h2 h3 h4 <;>
            first
              | rfl
              | (exfalso; obtain ⟨ha, hb⟩ := ‹_ ∧ _›; linarith)

/-- Witness for C4: the theorem applied at ls = 360, ls = -5, ls = 1000 and
ls = NaN yields Unknown each time. -/
theorem classify_season_out_of_range_unknown_witness :
    assign_mars_season_py (.fin 360) = "Unknown" ∧
    assign_mars_season_py (.fin (-5)) = "Unknown" ∧
    assign_mars_season_py (.fin 1000) = "Unknown" ∧
    assign_mars_season_py .nan = "Unknown" :=
  ⟨classify_season_out_of_range_unknown (.fin 360)
      (by intro q hq; injection hq with h; subst h; right; norm_num),
   classify_season_out_of_range_unknown (.fin (-5))
      (by intro q hq; injection hq with h; subst h; left; norm_num),
   classify_season_out_of_range_unknown (.fin 1000)
      (by intro q hq; injection hq with h; subst h; right; norm_num),
   classify_season_out_of_range_unknown .nan (by intro q hq; nomatch hq)⟩

/-- C2: a row of the input table appears in the cleaned output iff its
parsed date and its min_temp, max_temp, pressure and ls cells are all
present; a row missing any of the five is dropped, and a surviving row
keeps its original cell values (it appears as `addDerived (coerceDate p r)`,
which only parses the date and appends derived columns). -/
theorem load_row_retained_iff (fs : List String) (p : String → Option Date)
    (readCsv : String → RawTable) (path : String) (t : OutTable) (r : RawRow)
    (hok : load_and_clean_data fs p readCsv path = .ok t)
    (hr : r ∈ (readCsv path).rows) :
    addDerived (coerceDate p r) ∈ t.rows ↔
      ((r.terrestrial_date.bind p).isSome = true ∧ r.min_temp.isSome = true ∧
        r.max_temp.isSome = true ∧ r.pressure.isSome = true ∧
        r.ls.isSome = true) := by
  rw [load_ok_rows fs p readCsv path t hok, mem_clean_rows]
  constructor
  · rintro ⟨r2, _, hkeep, heq⟩
    have he : coerceDate p r2 = coerceDate p r := addDerived_inj heq
    rw [he] at hkeep
    simpa [dropnaKeep, coerceDate, and_assoc] using hkeep
  · intro h
    refine ⟨r, hr, ?_, rfl⟩
    simp only [dropnaKeep, coerceDate, Bool.and_eq_true]
    obtain ⟨h1, h2, h3, h4, h5⟩ := h
    exact ⟨⟨⟨⟨h1, h2⟩, h3⟩, h4⟩, h5⟩

/-- C3: every record of a successfully loaded table has its date, min_temp,
max_temp, pressure and ls cells present, and its season cell equals the
classifier applied to its ls cell. -/
theorem load_output_invariant (fs : List String) (p : String → Option Date)
    (readCsv : String → RawTable) (path : String) (t : OutTable) (c : OutRow)
    (hok : load_and_clean_data fs p readCsv path = .ok t)
    (hc : c ∈ t.rows) :
    c.terrestrial_date.isSome = true ∧ c.min_temp.isSome = true ∧
      c.max_temp.isSome = true ∧ c.pressure.isSome = true ∧
      ∃ l : ℚ, c.ls = some l ∧ c.season = assign_mars_season l := by
  rw [load_ok_rows fs p readCsv path t hok] at hc
  exact clean_rows_invariant p (readCsv path).rows c hc

/-- C9: once the source exists and the required columns are present, the
load always succeeds — an unparseable date cell becomes a missing marker
and its row is dropped by the subsequent filter instead of failing the
load. -/
theorem unparseable_dates_never_fail (fs : List String) (p : String → Option Date)
    (readCsv : String → RawTable) (path : String)
    (h1 : path ∈ fs)
    (h2 : requiredCols.find?
        (fun c => !((renameCols (normalizeCols (readCsv path).cols)).contains c)) = none) :
    ∃ t, load_and_clean_data fs p readCsv path = Except.ok t ∧
      ∀ r ∈ (readCsv path).rows, r.terrestrial_date.bind p = none →
        addDerived (coerceDate p r) ∉ t.rows := by
  refine ⟨_, load_eq_ok fs p readCsv path h1 h2, ?_⟩
  intro r _ hbad hmem
  have hinv := clean_rows_invariant p (readCsv path).rows _ hmem
  simp [addDerived, coerceDate, hbad] at hinv

/-- C10: a path that does not exist makes the load fail with the
source-not-found error; the result does not depend on the reader or the
parser (both stay uncalled), so no parsing is attempted and no table is
returned. -/
theorem source_not_found (fs : List String) (p : String → Option Date)
    (readCsv : String → RawTable) (path : String) (h : path ∉ fs) :
    load_and_clean_data fs p readCsv path = .error (.sourceNotFound path) := by
  unfold load_and_clean_data
  rw [if_neg h]

/-- C7 (amended): when a required column is absent from the normalized
header, the load fails fast with a KeyError-style lookup failure naming the
first missing required column — not with the descriptive SchemaError the
specification asks for. -/
theorem missing_column_key_error (fs : List String) (p : String → Option Date)
    (readCsv : String → RawTable) (path : String) (c : String)
    (h1 : path ∈ fs)
    (h2 : requiredCols.find?
        (fun x => !((renameCols (normalizeCols (readCsv path).cols)).contains x)) = some c) :
    load_and_clean_data fs p readCsv path = .error (.keyError c) := by
  unfold load_and_clean_data
  rw [if_pos h1]
  by_cases htd : "terrestrial_date" ∈ renameCols (normalizeCols (readCsv path).cols)
  · rw [if_pos htd, h2]
  · rw [if_neg htd]
    have hc : c = "terrestrial_date" := by
      simp [requiredCols, List.find?, htd] at h2
      exact h2.symm
    rw [hc]

/-- A concrete date grammar for witnesses: it accepts one date string. -/
def sampleDateMap : String → Option Date :=
  fun s => if s = "2012-08-06" then some ⟨2012, 8, 6⟩ else none

/-- A complete row: all five required cells present. -/
def fullRow : RawRow :=
  ⟨some ("2012-08-06"), some (-75), some (-10), some 739, some 155, some ("Sunny")⟩

/-- A row missing only its pressure cell. -/
def noPressureRow : RawRow :=
  ⟨some ("2012-08-06"), some (-75), some (-10), none, some 155, some ("Sunny")⟩

/-- A row whose date cell does not parse under `sampleDateMap`. -/
def badDateRow : RawRow :=
  ⟨some ("not-a-date"), some (-74), some (-9), some 740, some 156, none⟩

/-- A concrete raw table with a complete, an incomplete and a bad-date
row. -/
def sampleTable : RawTable :=
  ⟨["terrestrial_date", "min_temp", "max_temp", "pressure", "ls", "atmo_opacity"],
   [fullRow, noPressureRow, badDateRow]⟩

/-- The filesystem for witnesses: exactly one existing path. -/
def sampleFs : List String := ["mars-weather.csv"]

/-- The cleaned table the sample input loads to: only the complete row
survives. -/
def sampleClean : OutTable :=
  { cols := ["terrestrial_date", "min_temp", "max_temp", "pressure", "ls",
             "atmospheric_opacity", "season", "year", "day"]
    rows := [addDerived (coerceDate sampleDateMap fullRow)] }

/-- A concrete raw table whose header lacks the date column entirely. -/
def noDateTable : RawTable :=
  ⟨["min_temp", "max_temp", "pressure", "ls"], []⟩

/-- Witness for C2: the theorem applied to the sample table and its
pressure-less row; both sides of the instantiated equivalence are false,
i.e. that row is dropped. -/
theorem load_row_retained_iff_witness :
    (addDerived (coerceDate sampleDateMap noPressureRow) ∈ sampleClean.rows ↔
      ((noPressureRow.terrestrial_date.bind sampleDateMap).isSome = true ∧
        noPressureRow.min_temp.isSome = true ∧
        noPressureRow.max_temp.isSome = true ∧
        noPressureRow.pressure.isSome = true ∧
        noPressureRow.ls.isSome = true)) :=
  load_row_retained_iff sampleFs sampleDateMap (fun _ => sampleTable)
    "mars-weather.csv" sampleClean noPressureRow (by decide) (by decide)

/-- Witness for C3: the theorem applied to the sample table and its one
surviving record. -/
theorem load_output_invariant_witness :
    (addDerived (coerceDate sampleDateMap fullRow)).terrestrial_date.isSome = true ∧
      (addDerived (coerceDate sampleDateMap fullRow)).min_temp.isSome = true ∧
      (addDerived (coerceDate sampleDateMap fullRow)).max_temp.isSome = true ∧
      (addDerived (coerceDate sampleDateMap fullRow)).pressure.isSome = true ∧
      ∃ l : ℚ, (addDerived (coerceDate sampleDateMap fullRow)).ls = some l ∧
        (addDerived (coerceDate sampleDateMap fullRow)).season = assign_mars_season l :=
  load_output_invariant sampleFs sampleDateMap (fun _ => sampleTable)
    "mars-weather.csv" sampleClean (addDerived (coerceDate sampleDateMap fullRow))
    (by decide) (by decide)

/-- Witness for C9: the theorem applied to the sample table, whose
bad-date row is dropped while the load still succeeds. -/
theorem unparseable_dates_never_fail_witness :
    ∃ t, load_and_clean_data sampleFs sampleDateMap (fun _ => sampleTable)
        "mars-weather.csv" = Except.ok t ∧
      ∀ r ∈ sampleTable.rows, r.terrestrial_date.bind sampleDateMap = none →
        addDerived (coerceDate sampleDateMap r) ∉ t.rows :=
  unparseable_dates_never_fail sampleFs sampleDateMap (fun _ => sampleTable)
    "mars-weather.csv" (by decide) (by decide)

/-- Witness for C10: the theorem applied to a path outside the filesystem. -/
theorem source_not_found_witness :
    load_and_clean_data sampleFs sampleDateMap (fun _ => sampleTable)
      "missing.csv" = .error (.sourceNotFound ("missing.csv")) :=
  source_not_found sampleFs sampleDateMap (fun _ => sampleTable) "missing.csv"
    (by decide)

/-- C7 counterexample: on a source whose header lacks `terrestrial_date`,
the load fails with the KeyError-style lookup failure, and not with the
descriptive SchemaError the claim states. -/
theorem schema_error_not_raised :
    load_and_clean_data sampleFs sampleDateMap (fun _ => noDateTable)
        "mars-weather.csv" = .error (.keyError ("terrestrial_date")) ∧
    isSchemaError (load_and_clean_data sampleFs sampleDateMap (fun _ => noDateTable)
        "mars-weather.csv") = false := by
  constructor <;> decide

/-- Witness for C7 (amended): the theorem applied to the date-less table. -/
theorem missing_column_key_error_witness :
    load_and_clean_data sampleFs sampleDateMap (fun _ => noDateTable)
      "mars-weather.csv" = .error (.keyError ("terrestrial_date")) :=
  missing_column_key_error sampleFs sampleDateMap (fun _ => noDateTable)
    "mars-weather.csv" "terrestrial_date" (by decide) (by decide)

/-- Inserting into a sorted list only reorders: predicate counts agree
with consing. -/
theorem countP_insertSorted (p : String → Bool) (s : String) (l : List String) :
    (insertSorted s l).countP p = (s :: l).countP p := by
  induction l with
  | nil => rfl
  | cons t ts ih =>
      unfold insertSorted
      split_ifs
      · rfl
      · rw [List.countP_cons, ih, List.countP_cons, List.countP_cons,
          List.countP_cons]
        omega

/-- Sorting preserves predicate counts. -/
theorem countP_sortStrings (p : String → Bool) (l : List String) :
    (sortStrings l).countP p = l.countP p := by
  induction l with
  | nil => rfl
  | cons s ss ih =>
      unfold sortStrings
      rw [countP_insertSorted, List.countP_cons, List.countP_cons, ih]

/-- The deduplicated list holds each value of the original exactly once. -/
theorem countP_eq_firstDedup (s : String) (xs : List String) :
    (firstDedup xs).countP (fun k => k = s) = if s ∈ xs then 1 else 0 := by
  induction xs with
  | nil => rfl
  | cons x xs ih =>
      unfold firstDedup
      rw [List.countP_cons]
      by_cases hx : s = x
      · subst hx
        have h0 : ((firstDedup xs).filter (fun y => y ≠ s)).countP
            (fun k => k = s) = 0 := by
          rw [List.countP_eq_zero]
          intro a ha
          have := (List.mem_filter.mp ha).2
          simpa using this
        simp [h0]
      · have hfilter : ((firstDedup xs).filter (fun y => y ≠ x)).countP
            (fun k => k = s) = (firstDedup xs).countP (fun k => k = s) := by
          rw [List.countP_filter]
          apply List.countP_congr
          intro a _
          constructor
          · intro h
            simp only [Bool.and_eq_true, decide_eq_true_eq] at h
            simpa using h.1
          · intro h
            simp only [decide_eq_true_eq] at h
            subst h
            simp [hx]
        rw [hfilter, ih]
        have hxs : (decide (x = s)) = false := by
          simp
          exact fun h => hx h.symm
        simp [hxs, List.mem_cons, hx]

/-- An example cleaned record with the given season, min_temp, max_temp and
pressure. -/
def aggRow (s : String) (mn mx pr : ℚ) : OutRow :=
  { terrestrial_date := some ⟨2012, 8, 6⟩
    min_temp := some mn
    max_temp := some mx
    pressure := some pr
    ls := some 10
    atmospheric_opacity := none
    season := s
    year := some 2012
    day := some ("2012-08-06") }

/-- The example records of the specification: two Spring records with
min_temps 0 and 10 and two Summer records with min_temps 20 and 30. -/
def exampleRows : List OutRow :=
  [aggRow ("Spring") 0 1 700, aggRow ("Spring") 10 3 702,
   aggRow ("Summer") 20 20 800, aggRow ("Summer") 30 22 802]

/-- The expected Spring aggregate of the example records. -/
def springAgg : SeasonAgg :=
  { season := "Spring", min_temp := some 5, max_temp := some 2,
    pressure := some 701 }

/-- The expected Summer aggregate of the example records. -/
def summerAgg : SeasonAgg :=
  { season := "Summer", min_temp := some 25, max_temp := some 21,
    pressure := some 801 }

/-- C6: for every record list, the seasonal aggregate has exactly one row
per season label occurring among the records and no row for a season with
no records, and every emitted row holds the arithmetic mean of min_temp,
max_temp and pressure over the records with its season; on records with
seasons Spring (min_temps 0 and 10) and Summer (min_temps 20 and 30) it
yields Spring mean min_temp 5 and Summer mean min_temp 25, and no Autumn,
Winter or Unknown rows. -/
theorem aggregate_by_season_spec :
    (∀ (rows : List OutRow) (s : String),
        (aggregate_by_season rows).countP (fun a => a.season = s) =
          if s ∈ rows.map (fun r => r.season) then 1 else 0) ∧
    (∀ (rows : List OutRow), ∀ a ∈ aggregate_by_season rows,
        a.min_temp = meanOpt ((rows.filter (fun r => r.season = a.season)).map
            (fun r => r.min_temp)) ∧
        a.max_temp = meanOpt ((rows.filter (fun r => r.season = a.season)).map
            (fun r => r.max_temp)) ∧
        a.pressure = meanOpt ((rows.filter (fun r => r.season = a.season)).map
            (fun r => r.pressure))) ∧
    aggregate_by_season exampleRows = [springAgg, summerAgg] := by
  refine ⟨?_, ?_, ?_⟩
  · intro rows s
    unfold aggregate_by_season
    rw [List.countP_map]
    show (sortStrings (firstDedup (rows.map (fun r => r.season)))).countP
        (fun k => k = s) = if s ∈ rows.map (fun r => r.season) then 1 else 0
    rw [countP_sortStrings]
    exact countP_eq_firstDedup s (rows.map (fun r => r.season))
  · intro rows a ha
    simp only [aggregate_by_season] at ha
    rcases List.mem_map.mp ha with ⟨k, _, rfl⟩
    exact ⟨rfl, rfl, rfl⟩
  · have hlt : ltStr ("Spring") ("Summer") = true := rfl
    have hm1 : meanOpt [some (0 : ℚ), some 10] = some 5 := by
      simp [meanOpt]
      norm_num
    have hm2 : meanOpt [some (1 : ℚ), some 3] = some 2 := by
      simp [meanOpt]
      norm_num
    have hm3 : meanOpt [some (700 : ℚ), some 702] = some 701 := by
      simp [meanOpt]
      norm_num
    have hm4 : meanOpt [some (20 : ℚ), some 30] = some 25 := by
      simp [meanOpt]
      norm_num
    have hm5 : meanOpt [some (20 : ℚ), some 22] = some 21 := by
      simp [meanOpt]
      norm_num
    have hm6 : meanOpt [some (800 : ℚ), some 802] = some 801 := by
      simp [meanOpt]
      norm_num
    simp [aggregate_by_season, exampleRows, springAgg, summerAgg, firstDedup,
      sortStrings, insertSorted, hlt, aggRow, hm1, hm2, hm3, hm4, hm5, hm6]

/-- Witness for C6: the theorem applied on the example records shows one
Spring row and no Winter row, and, applied to the emitted Spring row,
gives its mean min_temp equation with the record-membership hypothesis
discharged concretely. -/
theorem aggregate_by_season_spec_witness :
    (aggregate_by_season exampleRows).countP
        (fun a => a.season = "Spring") = 1 ∧
    (aggregate_by_season exampleRows).countP
        (fun a => a.season = "Winter") = 0 ∧
    springAgg.min_temp = meanOpt ((exampleRows.filter
        (fun r => r.season = springAgg.season)).map (fun r => r.min_temp)) := by
  refine ⟨?_, ?_, ?_⟩
  · rw [aggregate_by_season_spec.1 exampleRows ("Spring")]
    decide
  · rw [aggregate_by_season_spec.1 exampleRows ("Winter")]
    decide
  · have hmem : springAgg ∈ aggregate_by_season exampleRows := by
      rw [aggregate_by_season_spec.2.2]
      exact List.mem_cons_self _ _
    exact (aggregate_by_season_spec.2.1 exampleRows springAgg hmem).1

/-- C5: the loader trims surrounding whitespace from and lowercases every
column name, and only then renames the alias `atmo_opacity` to
`atmospheric_opacity`; a source header " Min_Temp " is mapped to min_temp
and "ATMO_OPACITY" to atmospheric_opacity. (The second conjunct shows the
whole header step is the rename applied after the case/whitespace
normalization, name by name.) -/
theorem header_normalization :
    renameCols (normalizeCols [" Min_Temp ", "ATMO_OPACITY"]) =
      ["min_temp", "atmospheric_opacity"] ∧
    ∀ cols : List String,
      renameCols (normalizeCols cols) =
        cols.map (fun c => renameOne (lowerStr (trimStr c))) := by
  constructor
  · decide
  · intro cols
    simp [renameCols, normalizeCols, List.map_map, Function.comp]

/-- An example cleaned record carrying the given opacity cell. -/
def opacityRow (o : Option String) : OutRow :=
  { terrestrial_date := some ⟨2012, 8, 6⟩
    min_temp := some (-75)
    max_temp := some (-10)
    pressure := some 739
    ls := some 155
    atmospheric_opacity := o
    season := "Summer"
    year := some 2012
    day := some ("2012-08-06") }

/-- C8: the opacity tally distinguishes an absent column from an empty
one: a table without the `atmospheric_opacity` column signals the absent
column (`none`), a table with the column but no surviving rows yields the
empty tally `some []`, and with the column present the tally has exactly
one entry per distinct observed value, counted by exact string equality
(missing cells not counted, as the concrete conjunct shows). -/
theorem tally_opacity_spec :
    (∀ t : OutTable, "atmospheric_opacity" ∉ t.cols → tally_opacity t = none) ∧
    (∀ cols : List String, "atmospheric_opacity" ∈ cols →
        tally_opacity { cols := cols, rows := [] } = some []) ∧
    (∀ t : OutTable, "atmospheric_opacity" ∈ t.cols →
        ∃ l, tally_opacity t = some l ∧
          (∀ v : String, l.countP (fun pr => pr.1 = v) =
            if v ∈ t.rows.filterMap (fun r => r.atmospheric_opacity) then 1
            else 0) ∧
          ∀ pr ∈ l,
            pr.2 = (t.rows.filterMap (fun r => r.atmospheric_opacity)).count pr.1) ∧
    tally_opacity
        { cols := ["atmospheric_opacity"]
          rows := [opacityRow (some ("Sunny")), opacityRow (some ("Sunny")),
                   opacityRow (some ("Cloudy")), opacityRow none] } =
      some [("Sunny", 2), ("Cloudy", 1)] := by
  refine ⟨?_, ?_, ?_, by decide⟩
  · intro t h
    simp [tally_opacity, h]
  · intro cols h
    simp [tally_opacity, h, value_counts, firstDedup]
  · intro t h
    refine ⟨value_counts (t.rows.filterMap (fun r => r.atmospheric_opacity)),
      by simp [tally_opacity, h], ?_, ?_⟩
    · intro v
      unfold value_counts
      rw [List.countP_map]
      show (firstDedup (t.rows.filterMap fun r => r.atmospheric_opacity)).countP
          (fun k => k = v) = _
      exact countP_eq_firstDedup v _
    · intro pr hpr
      unfold value_counts at hpr
      rcases List.mem_map.mp hpr with ⟨w, _, rfl⟩
      rfl

/-- Witness for C8: by the theorem, a table without the opacity column
signals the absent column, and one with the column but no rows yields the
empty tally. -/
theorem tally_opacity_spec_witness :
    tally_opacity { cols := ["season"], rows := [] } = none ∧
    tally_opacity { cols := ["atmospheric_opacity"], rows := [] } = some [] :=
  ⟨tally_opacity_spec.1 { cols := ["season"], rows := [] } (by decide),
   tally_opacity_spec.2.1 ["atmospheric_opacity"] (by decide)⟩

end MarsClimate
